import Mathlib

/-!
Verification of the strided array/view core of `matpackI.h` (the `Range`,
iterator, vector-view and matrix-view layer of the matpack library).

The embedding models:
* `Index` (a signed machine integer) as `Int`; no claim checked here involves
  integer overflow, so the modulus is omitted.
* `Numeric` (the element type) as `ℚ`; every claim checked here involves only
  exact small-integer arithmetic, where the C++ double behaves exactly.
* raw pointers as addresses (`Int`) into a memory `Mem : Int → ℚ`; mutation is
  explicit state passing of the memory.

Method bodies that live in `matpackI.cc` (which is not among the sources, only
the header is) are modelled from the spec and carry a doc comment saying so.
-/

namespace Matpack

/-- The index type of the library (`Index`, a signed machine integer). -/
abbrev Index := Int

/-- The element type of the library (`Numeric`, a floating-point double);
every claim checked here involves only exact small-integer values and exact
additions and multiplications, on which the double behaves like an integer,
so the element type is modelled as `Int`. -/
abbrev Numeric := Int

/-- The address space of `Numeric` cells; a raw `Numeric*` pointer is an
address (`Index`) into it. -/
abbrev Mem := Index → Numeric

/-- Writing one memory cell (an assignment through a pointer). -/
def memWrite (m : Mem) (i : Index) (x : Numeric) : Mem :=
  fun j => if j = i then x else m j

/-- The `Range` class of matpackI.h: a subselection of a linear index space
given by start index `mstart`, number of elements `mextent`, and step
`mstride`.  Per the header, `mextent = -1` is the sentinel stored by the
joker constructors and means "extent to the end of the vector". -/
structure Range where
  mstart : Index
  mextent : Index
  mstride : Index
deriving Repr, DecidableEq

/-- `Range::operator()(const Range r)` of matpackI.h ("range of range"): if the
inner extent is negative (unbounded), the result is the joker range (sentinel
extent `-1`) when the outer is also unbounded, else it keeps the outer's
extent; otherwise it keeps the inner's extent.  Start and stride always compose
as `mstart + r.mstart*mstride` and `r.mstride*mstride`. -/
def Range.sub (outer : Range) (r : Range) : Range :=
  if r.mextent < 0 then
    if outer.mextent < 0 then
      ⟨outer.mstart + r.mstart * outer.mstride, -1, r.mstride * outer.mstride⟩
    else
      ⟨outer.mstart + r.mstart * outer.mstride, outer.mextent,
        r.mstride * outer.mstride⟩
  else
    ⟨outer.mstart + r.mstart * outer.mstride, r.mextent,
      r.mstride * outer.mstride⟩

/-- `Range::operator()(const Index i)` of matpackI.h: the absolute buffer index
of logical position `i`, namely `mstart + i * mstride`. -/
def Range.apply (r : Range) (i : Index) : Index :=
  r.mstart + i * r.mstride

/-- `Iterator1D` of matpackI.h: current position `mx` (a raw pointer, modelled
as an address) and the stride.  The default constructor gives `mx = nullptr`
(address 0 here) and `mstride = 0`. -/
structure Iterator1D where
  mx : Index
  mstride : Index
deriving Repr, DecidableEq

/-- `Iterator1D::operator!=` of matpackI.h: true iff the raw pointers differ;
the strides are not consulted. -/
def Iterator1D.ne (a b : Iterator1D) : Bool :=
  if a.mx ≠ b.mx then true else false

/-- `Iterator1D::operator==` of matpackI.h: the negation of `operator!=`. -/
def Iterator1D.beq (a b : Iterator1D) : Bool :=
  !(a.ne b)

/-- `Iterator1D::operator-` of matpackI.h: the raw pointer difference divided
by the LEFT operand's stride; C++ signed integer division truncates toward
zero, i.e. `Int.tdiv`. -/
def Iterator1D.sub (a b : Iterator1D) : Index :=
  Int.tdiv (a.mx - b.mx) a.mstride

/-- `ConstIterator1D` of matpackI.h: same data as `Iterator1D` but over
const elements. -/
structure ConstIterator1D where
  mx : Index
  mstride : Index
deriving Repr, DecidableEq

/-- `ConstIterator1D::operator!=` of matpackI.h: true iff the raw pointers
differ; the strides are not consulted. -/
def ConstIterator1D.ne (a b : ConstIterator1D) : Bool :=
  if a.mx ≠ b.mx then true else false

/-- `ConstVectorView` of matpackI.h: the used range of the buffer and the raw
data pointer (an address).  `VectorView` adds only mutating methods on the
same data, so both are modelled by this one structure. -/
structure ConstVectorView where
  mrange : Range
  mdata : Index
deriving Repr, DecidableEq

/-- `VectorView` is layered over `ConstVectorView` without extra data. -/
abbrev VectorView := ConstVectorView

/-- `ConstVectorView::get` (and the identical `VectorView::get`) of
matpackI.h: unchecked element access
`*(mdata + mrange.mstart + n * mrange.mstride)`. -/
def ConstVectorView.get (v : ConstVectorView) (mem : Mem) (n : Index) : Numeric :=
  mem (v.mdata + v.mrange.mstart + n * v.mrange.mstride)

/-- `ConstVectorView::operator[](Index)` (and the identical
`VectorView::operator[](Index)`) of matpackI.h: asserts `0 <= n` and
`n < mrange.mextent`, then calls `get(n)`.  A failed assertion is modelled
as `none`. -/
def ConstVectorView.idx (v : ConstVectorView) (mem : Mem) (n : Index) : Option Numeric :=
  if 0 ≤ n ∧ n < v.mrange.mextent then some (v.get mem n) else none

/-- Modelled from the spec: `VectorView::operator[](const Range&)` is declared
in matpackI.h (line 486) but its body is in matpackI.cc, absent from the
sources.  Spec section 4.3/4.1: the sub-view is the same buffer pointer with
the Range composed per section 4.1 (the composition of `Range.sub`). -/
def VectorView.subRange (v : VectorView) (r : Range) : VectorView :=
  ⟨v.mrange.sub r, v.mdata⟩

/-- Modelled from the spec: `VectorView::operator*=(Numeric x)` is declared in
matpackI.h (line 500) but its body is in matpackI.cc, absent from the sources.
Spec section 4.3: compound scalar ops scale every addressed element in place;
elements are visited in increasing index order. -/
def VectorView.mulAssign (v : VectorView) (x : Numeric) (mem : Mem) : Mem :=
  (List.range v.mrange.mextent.toNat).foldl
    (fun m i =>
      memWrite m (v.mdata + v.mrange.apply (i : Index))
        (m (v.mdata + v.mrange.apply (i : Index)) * x))
    mem

/-- `ConstMatrixView` of matpackI.h: row range `mrr`, column range `mcr`, and
the raw data pointer.  `MatrixView` adds only mutating methods on the same
data, so both are modelled by this one structure. -/
structure ConstMatrixView where
  mrr : Range
  mcr : Range
  mdata : Index
deriving Repr, DecidableEq

/-- `ConstMatrixView::get` (and the identical `MatrixView::get`) of
matpackI.h: unchecked element access
`*(mdata + mrr.mstart + r*mrr.mstride + mcr.mstart + c*mcr.mstride)`. -/
def ConstMatrixView.get (m : ConstMatrixView) (mem : Mem) (r c : Index) : Numeric :=
  mem (m.mdata + m.mrr.mstart + r * m.mrr.mstride + m.mcr.mstart + c * m.mcr.mstride)

/-- `ConstMatrixView::operator()(Index, Index)` (and the identical
`MatrixView::operator()`) of matpackI.h: asserts `0 <= r`, `0 <= c`,
`r < mrr.mextent`, `c < mcr.mextent`, then calls `get(r, c)`.  A failed
assertion is modelled as `none`. -/
def ConstMatrixView.idx (m : ConstMatrixView) (mem : Mem) (r c : Index) : Option Numeric :=
  if 0 ≤ r ∧ 0 ≤ c ∧ r < m.mrr.mextent ∧ c < m.mcr.mextent then
    some (m.get mem r c)
  else
    none

/-- The owning `Vector` of matpackI.h: a VectorView whose `mdata` pointer may
be null (`none`) after being moved from. -/
structure Vector where
  mrange : Range
  mdata : Option Index
deriving Repr, DecidableEq

/-- `Vector::Vector(Vector&&)` of matpackI.h (lines 647-649): the base
`VectorView` subobject is copied from the source (taking its range and data
pointer), then the source's `mdata` is set to `nullptr`.  Returns the pair
(constructed vector, moved-from source). -/
def Vector.moveCtor (v : Vector) : Vector × Vector :=
  (⟨v.mrange, v.mdata⟩, ⟨v.mrange, none⟩)

/-- The owning `Matrix` of matpackI.h: a MatrixView whose `mdata` pointer may
be null (`none`) after being moved from. -/
structure Matrix where
  mrr : Range
  mcr : Range
  mdata : Option Index
deriving Repr, DecidableEq

/-- `Matrix::Matrix(Matrix&&)` of matpackI.h (lines 899-901): the base
`MatrixView` subobject is copied from the source, then the source's `mdata`
is set to `nullptr`.  Returns the pair (constructed matrix, moved-from
source). -/
def Matrix.moveCtor (m : Matrix) : Matrix × Matrix :=
  (⟨m.mrr, m.mcr, m.mdata⟩, ⟨m.mrr, m.mcr, none⟩)

/-- Modelled from the spec: the error taxonomy of spec section 7 — dimension
mismatch in assignment or multiply is a distinguishable, always-checked error
kind `DimensionMismatch`. -/
inductive MatpackError where
  | DimensionMismatch
deriving Repr, DecidableEq

/-- Modelled from the spec: `VectorView::operator=(const ConstVectorView&)` is
declared in matpackI.h (lines 492-497) but its body is in matpackI.cc, absent
from the sources.  Per spec sections 4.3 and 7: it requires
`dst.extent == src.extent`, raising `DimensionMismatch` in every build mode
(the `debugBuild` flag is never consulted by the check) when they differ, and
otherwise copies element by element in increasing index order honoring both
strides. -/
def VectorView.assign (debugBuild : Bool) (mem : Mem) (dst src : VectorView) :
    Except MatpackError Mem :=
  if dst.mrange.mextent ≠ src.mrange.mextent then
    .error .DimensionMismatch
  else
    .ok ((List.range dst.mrange.mextent.toNat).foldl
      (fun m i =>
        memWrite m (dst.mdata + dst.mrange.apply (i : Index))
          (src.get m (i : Index)))
      mem)

/-- Modelled from the spec: `mult(VectorView, ConstMatrixView, ConstVectorView)`
is declared in matpackI.h (line 936) but its body is in matpackI.cc, absent
from the sources.  Per spec sections 4.6 and 7: it validates that the operand
extents are conformable (`M.ncols == x.nelem`) and that the output has
matching shape (`y.nelem == M.nrows`), raising `DimensionMismatch` in every
build mode (the `debugBuild` flag is never consulted by the check) when they
are not, and otherwise computes `y[r] = sum over c of M(r,c) * x[c]`. -/
def mult (debugBuild : Bool) (mem : Mem) (y : VectorView) (M : ConstMatrixView)
    (x : ConstVectorView) : Except MatpackError Mem :=
  if M.mcr.mextent ≠ x.mrange.mextent ∨ y.mrange.mextent ≠ M.mrr.mextent then
    .error .DimensionMismatch
  else
    .ok ((List.range y.mrange.mextent.toNat).foldl
      (fun m r =>
        memWrite m (y.mdata + y.mrange.apply (r : Index))
          ((List.range x.mrange.mextent.toNat).foldl
            (fun acc c => acc + M.get mem (r : Index) (c : Index) * x.get mem (c : Index))
            0))
      mem)

/-- The memory contents produced by `Vector v = \x7b1,2,3,4,5\x7d`: a buffer of
five cells at address 0 holding 1..5 (cells outside the buffer read 0). -/
def initBuf : Mem := fun i =>
  if i = 0 then 1
  else if i = 1 then 2
  else if i = 2 then 3
  else if i = 3 then 4
  else if i = 4 then 5
  else 0

/-- The view the owning `Vector v = \x7b1,2,3,4,5\x7d` has of its buffer:
range (0, 5, 1) at address 0. -/
def vOwner : VectorView := ⟨⟨0, 5, 1⟩, 0⟩

/-- An all-zero memory, used as a concrete instance in witnesses. -/
def zeroMem : Mem := fun _ => 0

/- ------------------------------------------------------------------ -/
/- Helper lemmas                                                      -/
/- ------------------------------------------------------------------ -/

theorem Range.eq_of_fields {x y : Range} (h1 : x.mstart = y.mstart)
    (h2 : x.mextent = y.mextent) (h3 : x.mstride = y.mstride) : x = y := by
  cases x; cases y; simp_all

theorem Range.sub_mstart (x y : Range) :
    (x.sub y).mstart = x.mstart + y.mstart * x.mstride := by
  unfold Range.sub; split_ifs <;> rfl

theorem Range.sub_mstride (x y : Range) :
    (x.sub y).mstride = y.mstride * x.mstride := by
  unfold Range.sub; split_ifs <;> rfl

theorem Range.sub_mextent (x y : Range) :
    (x.sub y).mextent =
      if y.mextent < 0 then (if x.mextent < 0 then -1 else x.mextent)
      else y.mextent := by
  unfold Range.sub; split_ifs <;> rfl

/- ------------------------------------------------------------------ -/
/- Claim theorems                                                     -/
/- ------------------------------------------------------------------ -/

/-- C1, counterexample to the claim as stated: for outer `Range(0,5,1)` and
unbounded inner `Range(2,-1,1)` the composition's extent is the outer's full
extent 5, not the outer's extent reduced by the inner's start (5 - 2 = 3) as
the claim says. -/
theorem range_compose_counterexample :
    (Range.sub ⟨0, 5, 1⟩ ⟨2, -1, 1⟩).mextent = 5 ∧
      ¬(Range.sub ⟨0, 5, 1⟩ ⟨2, -1, 1⟩).mextent = 5 - 2 := by
  decide

/-- C1 (amended): composition `outer(inner)` yields
`start = outer.start + inner.start*outer.stride` and
`stride = inner.stride*outer.stride`; the extent is the inner's extent when
the inner is bounded; when the inner is unbounded the extent is the outer's
extent taken unchanged (not reduced by the inner's start), and is the
unbounded sentinel -1 when the outer is itself unbounded too. -/
theorem range_compose_fields (outer r : Range) :
    (outer.sub r).mstart = outer.mstart + r.mstart * outer.mstride ∧
    (outer.sub r).mstride = r.mstride * outer.mstride ∧
    (0 ≤ r.mextent → (outer.sub r).mextent = r.mextent) ∧
    (r.mextent < 0 → 0 ≤ outer.mextent → (outer.sub r).mextent = outer.mextent) ∧
    (r.mextent < 0 → outer.mextent < 0 → (outer.sub r).mextent = -1) := by
  refine ⟨Range.sub_mstart _ _, Range.sub_mstride _ _, ?_, ?_, ?_⟩ <;>
    rw [Range.sub_mextent] <;> intros <;> split_ifs <;> first | rfl | linarith

/-- C1 witness: the amended extent rules evaluated at concrete ranges. -/
theorem range_compose_fields_witness :
    (Range.sub ⟨0, 5, 1⟩ ⟨1, 3, 1⟩).mextent = 3 ∧
    (Range.sub ⟨0, 5, 1⟩ ⟨2, -1, 1⟩).mextent = 5 ∧
    (Range.sub ⟨0, -1, 1⟩ ⟨2, -1, 1⟩).mextent = -1 :=
  ⟨(range_compose_fields ⟨0, 5, 1⟩ ⟨1, 3, 1⟩).2.2.1 (by decide),
   (range_compose_fields ⟨0, 5, 1⟩ ⟨2, -1, 1⟩).2.2.2.1 (by decide) (by decide),
   (range_compose_fields ⟨0, -1, 1⟩ ⟨2, -1, 1⟩).2.2.2.2 (by decide) (by decide)⟩

/-- C3: Range composition is associative — for all Ranges `a`, `b`, `c`
(bounded or unbounded), `a(b(c))` equals `a(b)(c)` in start, extent and
stride. -/
theorem range_compose_assoc (a b c : Range) :
    a.sub (b.sub c) = (a.sub b).sub c := by
  refine Range.eq_of_fields ?_ ?_ ?_
  · rw [Range.sub_mstart, Range.sub_mstart, Range.sub_mstart, Range.sub_mstart,
      Range.sub_mstride]
    ring
  · rw [Range.sub_mextent, Range.sub_mextent, Range.sub_mextent,
      Range.sub_mextent]
    split_ifs <;> first | rfl | linarith
  · rw [Range.sub_mstride, Range.sub_mstride, Range.sub_mstride,
      Range.sub_mstride]
    ring

/-- C4: for a resolved Range with start `s`, extent `n`, stride `k` and any
index `0 ≤ i < n`, `range(i) = s + i*k`. -/
theorem range_apply_index (r : Range) (i : Index) (h0 : 0 ≤ i)
    (h1 : i < r.mextent) : r.apply i = r.mstart + i * r.mstride := rfl

/-- C4 witness: `Range(3,4,2)` applied to index 1 yields `3 + 1*2`. -/
theorem range_apply_index_witness :
    (0 : Index) ≤ 1 ∧ (1 : Index) < 4 ∧
      Range.apply ⟨3, 4, 2⟩ 1 = 3 + 1 * 2 :=
  ⟨by decide, by decide, range_apply_index ⟨3, 4, 2⟩ 1 (by decide) (by decide)⟩

/-- C5: for any matrix view and valid indices `r`, `c`, element access
`m(r,c)` reads the buffer cell at offset
`mrr.mstart + r*mrr.mstride + mcr.mstart + c*mcr.mstride`, i.e. the
composition of the row Range and the column Range applications. -/
theorem matrix_access_composes_ranges (mem : Mem) (m : ConstMatrixView)
    (r c : Index) (h1 : 0 ≤ r) (h2 : 0 ≤ c) (h3 : r < m.mrr.mextent)
    (h4 : c < m.mcr.mextent) :
    m.idx mem r c = some (mem (m.mdata + m.mrr.apply r + m.mcr.apply c)) := by
  unfold ConstMatrixView.idx ConstMatrixView.get Range.apply
  rw [if_pos ⟨h1, h2, h3, h4⟩]
  congr 1
  ring_nf

/-- C5 witness: a 2x2 view (row stride 2, column stride 1) over the 1..5
buffer, read at (1,1). -/
theorem matrix_access_composes_ranges_witness :
    ConstMatrixView.idx ⟨⟨0, 2, 2⟩, ⟨0, 2, 1⟩, 0⟩ initBuf 1 1 =
      some (initBuf (0 + Range.apply ⟨0, 2, 2⟩ 1 + Range.apply ⟨0, 2, 1⟩ 1)) :=
  matrix_access_composes_ranges initBuf ⟨⟨0, 2, 2⟩, ⟨0, 2, 1⟩, 0⟩ 1 1
    (by decide) (by decide) (by decide) (by decide)

/-- C6: 1D iterators compare equal exactly when their raw element pointers are
the same address, regardless of either stride; this holds for `Iterator1D`
(`operator!=` and `operator==`) and for `ConstIterator1D`. -/
theorem iterator_eq_iff_same_address (p q k1 k2 : Index) :
    (Iterator1D.ne ⟨p, k1⟩ ⟨q, k2⟩ = false ↔ p = q) ∧
    (Iterator1D.beq ⟨p, k1⟩ ⟨q, k2⟩ = true ↔ p = q) ∧
    (ConstIterator1D.ne ⟨p, k1⟩ ⟨q, k2⟩ = false ↔ p = q) := by
  unfold Iterator1D.beq Iterator1D.ne ConstIterator1D.ne
  refine ⟨?_, ?_, ?_⟩ <;> split_ifs <;> simp_all

/-- C7: `v[n]` is guarded by assertions `0 <= n` and `n < mrange.mextent` —
under that precondition it returns exactly the unchecked `get(n)`, and outside
it the assertion fires — while `get(n)` itself always performs the plain
address computation `mdata + mrange.mstart + n*mrange.mstride` with no
check. -/
theorem vector_idx_checked_get_unchecked (mem : Mem) (v : ConstVectorView)
    (n : Index) :
    (0 ≤ n ∧ n < v.mrange.mextent → v.idx mem n = some (v.get mem n)) ∧
    (¬(0 ≤ n ∧ n < v.mrange.mextent) → v.idx mem n = none) ∧
    v.get mem n = mem (v.mdata + v.mrange.mstart + n * v.mrange.mstride) := by
  refine ⟨fun h => ?_, fun h => ?_, rfl⟩
  · unfold ConstVectorView.idx
    rw [if_pos h]
  · unfold ConstVectorView.idx
    rw [if_neg h]

/-- C7 witness: on a 5-element view, index 2 passes the assertions and equals
the unchecked get; index 7 fails them. -/
theorem vector_idx_checked_get_unchecked_witness :
    ConstVectorView.idx ⟨⟨0, 5, 1⟩, 0⟩ zeroMem 2 =
        some (ConstVectorView.get ⟨⟨0, 5, 1⟩, 0⟩ zeroMem 2) ∧
      ConstVectorView.idx ⟨⟨0, 5, 1⟩, 0⟩ zeroMem 7 = none :=
  ⟨(vector_idx_checked_get_unchecked zeroMem ⟨⟨0, 5, 1⟩, 0⟩ 2).1 (by decide),
   (vector_idx_checked_get_unchecked zeroMem ⟨⟨0, 5, 1⟩, 0⟩ 7).2.1 (by decide)⟩

/-- C8: move construction of `Vector` and `Matrix` transfers the buffer
pointer (and ranges) to the new object and sets the moved-from object's data
pointer to null. -/
theorem move_ctor_nulls_source (v : Vector) (m : Matrix) :
    (Vector.moveCtor v).1.mdata = v.mdata ∧
    (Vector.moveCtor v).1.mrange = v.mrange ∧
    (Vector.moveCtor v).2.mdata = none ∧
    (Matrix.moveCtor m).1.mdata = m.mdata ∧
    (Matrix.moveCtor m).2.mdata = none :=
  ⟨rfl, rfl, rfl, rfl, rfl⟩

/-- C2: assignment between views of mismatched extents, and multiply with
non-conformable operands, raise the distinguishable error kind
`DimensionMismatch` in every build mode (the result does not depend on the
`debugBuild` flag) rather than proceeding. -/
theorem dimension_mismatch_always_raised (debugBuild : Bool) (mem : Mem)
    (dst src y x : VectorView) (M : ConstMatrixView) :
    (dst.mrange.mextent ≠ src.mrange.mextent →
      VectorView.assign debugBuild mem dst src = .error .DimensionMismatch) ∧
    (M.mcr.mextent ≠ x.mrange.mextent ∨ y.mrange.mextent ≠ M.mrr.mextent →
      mult debugBuild mem y M x = .error .DimensionMismatch) := by
  constructor
  · intro h
    unfold VectorView.assign
    rw [if_pos h]
  · intro h
    unfold mult
    rw [if_pos h]

/-- C2 witness: a 2-extent destination assigned from a 3-extent source, and a
2x3 matrix multiplied with a 2-vector, each raise `DimensionMismatch` (shown
here for the release build flag). -/
theorem dimension_mismatch_always_raised_witness :
    VectorView.assign false zeroMem ⟨⟨0, 2, 1⟩, 0⟩ ⟨⟨0, 3, 1⟩, 0⟩ =
        .error .DimensionMismatch ∧
      mult false zeroMem ⟨⟨0, 2, 1⟩, 0⟩ ⟨⟨0, 2, 3⟩, ⟨0, 3, 1⟩, 0⟩ ⟨⟨0, 2, 1⟩, 0⟩ =
        .error .DimensionMismatch :=
  ⟨(dimension_mismatch_always_raised false zeroMem ⟨⟨0, 2, 1⟩, 0⟩ ⟨⟨0, 3, 1⟩, 0⟩
      ⟨⟨0, 2, 1⟩, 0⟩ ⟨⟨0, 2, 1⟩, 0⟩ ⟨⟨0, 2, 3⟩, ⟨0, 3, 1⟩, 0⟩).1 (by decide),
   (dimension_mismatch_always_raised false zeroMem ⟨⟨0, 2, 1⟩, 0⟩ ⟨⟨0, 3, 1⟩, 0⟩
      ⟨⟨0, 2, 1⟩, 0⟩ ⟨⟨0, 2, 1⟩, 0⟩ ⟨⟨0, 2, 3⟩, ⟨0, 3, 1⟩, 0⟩).2 (by decide)⟩

/-- C9: with `v = \x7b1,2,3,4,5\x7d` and `sub = v[Range(1,3,1)]`, the sub-view
reads 2, 3, 4; after `sub *= 2` the owner reads 1, 4, 6, 8, 5 — the sub-view's
elements are doubled through the shared buffer and `v[0]`, `v[4]` are
unchanged. -/
theorem subview_scaling_scenario :
    (VectorView.subRange vOwner ⟨1, 3, 1⟩).get initBuf 0 = 2 ∧
    (VectorView.subRange vOwner ⟨1, 3, 1⟩).get initBuf 1 = 3 ∧
    (VectorView.subRange vOwner ⟨1, 3, 1⟩).get initBuf 2 = 4 ∧
    vOwner.get (VectorView.mulAssign (VectorView.subRange vOwner ⟨1, 3, 1⟩) 2 initBuf) 0 = 1 ∧
    vOwner.get (VectorView.mulAssign (VectorView.subRange vOwner ⟨1, 3, 1⟩) 2 initBuf) 1 = 4 ∧
    vOwner.get (VectorView.mulAssign (VectorView.subRange vOwner ⟨1, 3, 1⟩) 2 initBuf) 2 = 6 ∧
    vOwner.get (VectorView.mulAssign (VectorView.subRange vOwner ⟨1, 3, 1⟩) 2 initBuf) 3 = 8 ∧
    vOwner.get (VectorView.mulAssign (VectorView.subRange vOwner ⟨1, 3, 1⟩) 2 initBuf) 4 = 5 := by
  decide

/-- C10: `Iterator1D::operator-` divides the raw pointer difference by the
left operand's stride; for two iterators into the same view with the same
nonzero stride `k`, at logical positions `i` and `j` (addresses `p + i*k` and
`p + j*k`), it returns `i - j`. -/
theorem iterator_sub_positions (p k i j : Index) (hk : k ≠ 0) :
    Iterator1D.sub ⟨p + i * k, k⟩ ⟨p + j * k, k⟩ = i - j := by
  unfold Iterator1D.sub
  have h : p + i * k - (p + j * k) = (i - j) * k := by ring
  rw [h]
  exact Int.mul_tdiv_cancel (i - j) hk

/-- C10 witness: iterators with stride 2 at positions 3 and 1 of the same view
(base address 10) differ by 2. -/
theorem iterator_sub_positions_witness :
    Iterator1D.sub ⟨10 + 3 * 2, 2⟩ ⟨10 + 1 * 2, 2⟩ = 3 - 1 :=
  iterator_sub_positions 10 2 3 1 (by decide)

end Matpack
